import Mathlib

/-!
Shallow embedding of the scoring / aggregation / consistency / risk pipeline
of the tne-education-assessment backend, together with proofs that settle the
spec's testable claims against the code.

Conventions of the embedding:
* Python numbers (ints and floats) are modelled as exact rationals `ℚ`;
  Python `round(x, n)` (banker's rounding, half to even) is `pyround n x`.
* A Python value that may be `None` is an `Option`.
* Scorer functions that return either `None` or a dict with a `score` field
  are modelled as returning `Option` of the score payload; free-text
  `feedback` strings are elided where no claim depends on them.
* Database rows are passed explicitly as lists / structures.
-/

namespace TNE

/-- Round a rational to the nearest integer, half to even
(the rounding mode of Python's built-in `round`). -/
def roundHalfEven (q : ℚ) : ℤ :=
  let f : ℤ := ⌊q⌋
  let r : ℚ := q - f
  if r < 1/2 then f
  else if 1/2 < r then f + 1
  else if f % 2 = 0 then f else f + 1

/-- Python's `round(q, n)` on exact rationals. -/
def pyround (n : ℕ) (q : ℚ) : ℚ :=
  (roundHalfEven (q * 10 ^ n) : ℚ) / 10 ^ n

end TNE

namespace TNE.Binary

/-- The JSONB payload of a yes/no answer:
`{"answer": true/false, "evidence": "text..."}` (both keys optional). -/
structure BinValue where
  answer : Option Bool
  evidence : Option String
deriving DecidableEq

/-- The rubric attached to a binary item; only its `type` field is read. -/
structure BinRubric where
  rtype : String
deriving DecidableEq

/-- Evidence-quality bucket used by `score_binary`: length > 500 → 85,
length > 200 → 65, otherwise 40. -/
def evidenceQuality (len : ℕ) : ℚ :=
  if 500 < len then 85 else if 200 < len then 65 else 40

/-- Embedding of `score_binary` (src/backend/app/ai/scoring/binary.py).
Returns `none` where the Python returns `None`, and `some s` where it
returns a dict whose `"score"` is `s` (feedback elided). -/
def score_binary (value : Option BinValue) (rubric : Option BinRubric) :
    Option ℚ :=
  match value with
  | none => none
  | some v =>
    match v.answer with
    | none => none
    | some answer =>
      let binary_score : ℚ := if answer then 100 else 0
      let rubric_type : String := match rubric with
        | some r => r.rtype
        | none => ""
      if rubric_type = "binary_with_evidence" then
        let evidence : String := v.evidence.getD ""
        if evidence ≠ "" ∧ 50 < evidence.length then
          let eq := evidenceQuality evidence.length
          some (pyround 1 (3/10 * binary_score + 7/10 * eq))
        else some binary_score
      else some binary_score

end TNE.Binary

namespace TNE.Numeric

/-- One entry of a `numeric_range` rubric's `ranges` list; a missing
`min`/`max` key stands for `-inf` / `+inf` in the Python. -/
structure Range where
  lo : Option ℚ
  hi : Option ℚ
  score : ℚ
deriving DecidableEq

/-- `r.get("min", -inf) <= v < r.get("max", inf)` for one range. -/
def rangeContains (r : Range) (v : ℚ) : Bool :=
  (match r.lo with
   | none => true
   | some a => decide (a ≤ v)) &&
  (match r.hi with
   | none => true
   | some b => decide (v < b))

/-- The first-match loop of `score_numeric`. -/
def findRangeScore (rs : List Range) (v : ℚ) : Option ℚ :=
  match rs with
  | [] => none
  | r :: t => if rangeContains r v then some r.score else findRangeScore t v

/-- Embedding of `score_numeric` (src/backend/app/ai/scoring/numeric.py):
`none` is the Python `None` return (missing value, missing rubric, empty
ranges, or no matching range); `some s` is a returned dict with score `s`. -/
def score_numeric (value : Option ℚ) (rubric : Option (List Range)) :
    Option ℚ :=
  match value, rubric with
  | none, _ => none
  | _, none => none
  | some v, some ranges =>
    if ranges = [] then none
    else findRangeScore ranges v

end TNE.Numeric

namespace TNE.Aggregate

/-- Per-answer input to theme aggregation: the answer's nullable `ai_score`
paired with its item's `weight`. -/
abbrev ScoredItem := Option ℚ × ℚ

/-- The accumulation loop of `calculate_theme_scores`
(src/backend/app/services/scoring_service.py): returns
`(weighted_sum, total_weight)` over the answers with a non-null score. -/
def themeSums (rs : List ScoredItem) : ℚ × ℚ :=
  rs.foldl
    (fun acc p =>
      match p.1 with
      | some s => (acc.1 + s * p.2, acc.2 + p.2)
      | none => acc)
    (0, 0)

/-- `normalised = round(weighted_sum / total_weight, 2) if total_weight > 0
else None`. -/
def themeNormalised (rs : List ScoredItem) : Option ℚ :=
  let s := themeSums rs
  if 0 < s.2 then some (pyround 2 (s.1 / s.2)) else none

/-- `THEME_WEIGHTS` lookup with the Python default `0.2`. -/
def themeWeight (slug : String) : ℚ :=
  if slug = "teaching-learning" then 1/4
  else if slug = "student-experience" then 1/4
  else if slug = "governance" then 1/5
  else if slug = "impact" then 3/20
  else if slug = "financial" then 3/20
  else 1/5

/-- `weighted = round(normalised * theme_weight, 2)` with null propagation. -/
def themeWeighted (slug : String) (rs : List ScoredItem) : Option ℚ :=
  (themeNormalised rs).map (fun n => pyround 2 (n * themeWeight slug))

/-- The spec-side weighted-sum over the scored answers of a theme:
`Σ(answerScore × itemWeight)` over answers with a non-null score. -/
def scoredWeightedSum (rs : List ScoredItem) : ℚ :=
  ((rs.filter (fun p => p.1.isSome)).map (fun p => p.1.getD 0 * p.2)).sum

/-- The spec-side weight total over the scored answers of a theme:
`Σ(itemWeight)` over answers with a non-null score. -/
def scoredWeightSum (rs : List ScoredItem) : ℚ :=
  ((rs.filter (fun p => p.1.isSome)).map (fun p => p.2)).sum

/-- Embedding of the overall-score computation at the end of
`calculate_theme_scores`:
`overall = sum(w for w in weighteds if w is not None)` and
`overall_score = round(overall, 2) if any(weighteds) else None` —
note the Python `any` is over TRUTHY values, so a weighted score of
exactly `0.0` counts as absent. -/
def overallScore (weighteds : List (Option ℚ)) : Option ℚ :=
  let overall := (weighteds.filterMap id).sum
  if weighteds.any (fun w =>
      match w with
      | some x => x ≠ 0
      | none => false) then
    some (pyround 2 overall)
  else none

/-- The spec-side overall score: null iff every weighted theme score is
null, otherwise the sum of the non-null weighted scores. -/
def overallScoreSpec (weighteds : List (Option ℚ)) : Option ℚ :=
  if weighteds.all (fun w => w = none) then none
  else some ((weighteds.filterMap id).sum)

end TNE.Aggregate

namespace TNE.Consistency

/-- One item's JSONB response payload, `{"value": ...}`; numeric values
only (the rules compare numbers). -/
structure RespValue where
  value : Option ℚ
deriving DecidableEq

/-- The `responses_by_code` map, as an association list from item code to
response payload. -/
abbrev Responses := List (String × RespValue)

/-- Dictionary lookup by item code (`responses_by_code.get(code)`). -/
def lookupCode (r : Responses) (code : String) : Option RespValue :=
  match r with
  | [] => none
  | (c, v) :: t => if c = code then some v else lookupCode t code

/-- `r.get(code, {})` followed by `.get("value", default)`. -/
def getValue (r : Responses) (code : String) (default : Option ℚ) :
    Option ℚ :=
  match lookupCode r code with
  | none => default
  | some rv =>
    match rv.value with
    | none => default
    | some x => some x

/-- Python `x or fallback` on a numeric-or-missing operand: `None` and `0`
are falsy and replaced by the fallback (`none` here models
`float("inf")` / a missing fallback stays `none`). -/
def orFalsy (x : Option ℚ) (fallback : Option ℚ) : Option ℚ :=
  match x with
  | none => fallback
  | some v => if v = 0 then fallback else some v

/-- One consistency rule: its id, description, and check
(`true` = consistent). -/
structure Rule where
  id : String
  description : String
  check : Responses → Bool

/-- `(r.get(a, {}).get("value", 0) or 0) <=
(r.get(b, {}).get("value", inf) or inf)`: the left operand defaults to 0,
the right to `+inf` (modelled as `none`, which every value satisfies). -/
def leRule (a b : String) (r : Responses) : Bool :=
  let lhs : ℚ := (orFalsy (getValue r a (some 0)) (some 0)).getD 0
  match orFalsy (getValue r b none) none with
  | none => true
  | some rhs => decide (lhs ≤ rhs)

/-- `0 <= (r.get(code, {}).get("value", 50) or 50) <= 100`. -/
def pctRule (code : String) (r : Responses) : Bool :=
  let v : ℚ := (orFalsy (getValue r code (some 50)) (some 50)).getD 50
  decide (0 ≤ v) && decide (v ≤ 100)

/-- `CONSISTENCY_RULES` (src/backend/app/ai/scoring/consistency.py). -/
def CONSISTENCY_RULES : List Rule :=
  [ ⟨"staff_count_vs_phd", "PhD staff cannot exceed total academic staff",
      leRule "TL07" "TL06"⟩,
    ⟨"flying_faculty_vs_staff",
      "Flying faculty cannot exceed total academic staff",
      leRule "TL09" "TL06"⟩,
    ⟨"retention_plausibility", "Retention rate should be between 0-100%",
      pctRule "TL04"⟩,
    ⟨"employment_rate_plausibility",
      "Employment rate should be between 0-100%",
      pctRule "SE04"⟩ ]

/-- One reported issue (the dict appended by `run_rule_checks`; its
`type` field is the constant `"rule_violation"`). -/
structure Issue where
  severity : String
  rule_id : String
  description : String
deriving DecidableEq

/-- Embedding of `run_rule_checks`: every rule whose check fails yields a
high-severity issue. -/
def run_rule_checks (r : Responses) : List Issue :=
  CONSISTENCY_RULES.foldl
    (fun issues rule =>
      if rule.check r then issues
      else issues ++ [⟨"high", rule.id, rule.description⟩])
    []

/-- Result of `check_consistency`. -/
structure ConsistencyResult where
  is_consistent : Bool
  issues : List Issue
  rule_issues_count : ℕ
  ai_issues_count : ℕ
deriving DecidableEq

/-- Embedding of `check_consistency` with `use_ai=False`: the model pass is
skipped, `ai_issues = []`. -/
def check_consistency_noAI (r : Responses) : ConsistencyResult :=
  let rule_issues := run_rule_checks r
  let ai_issues : List Issue := []
  let all_issues := rule_issues ++ ai_issues
  ⟨all_issues.length = 0, all_issues, rule_issues.length, ai_issues.length⟩

end TNE.Consistency

namespace TNE.Risk

/-- The flat metrics map fed to the risk engine; every key is optional. -/
structure Metrics where
  financial : Option ℚ := none
  governance : Option ℚ := none
  retention_rate : Option ℚ := none
  ssr : Option ℚ := none
  phd_pct : Option ℚ := none
  enrollment_trend : Option String := none
deriving DecidableEq

/-- One risk rule of `RISK_RULES`
(src/backend/app/ai/predictive/rule_based.py). -/
structure RiskRule where
  id : String
  name : String
  description : String
  weight : ℚ
  evaluate : Metrics → ℚ

/-- `max(0, (40 - scores.get("financial", 50)) / 40) if ... < 40 else 0`. -/
def evalLowFinancial (m : Metrics) : ℚ :=
  let s := m.financial.getD 50
  if s < 40 then max 0 ((40 - s) / 40) else 0

/-- `0.8 if scores.get("enrollment_trend") == "decreasing" else 0.0`. -/
def evalDecliningEnrollment (m : Metrics) : ℚ :=
  if m.enrollment_trend = some "decreasing" then 8/10 else 0

/-- `max(0, (70 - scores.get("retention_rate", 80)) / 70) if ... < 70`. -/
def evalLowRetention (m : Metrics) : ℚ :=
  let s := m.retention_rate.getD 80
  if s < 70 then max 0 ((70 - s) / 70) else 0

/-- `min(1.0, max(0, (scores.get("ssr", 20) - 35) / 30)) if ... > 35`. -/
def evalHighSSR (m : Metrics) : ℚ :=
  let s := m.ssr.getD 20
  if 35 < s then min 1 (max 0 ((s - 35) / 30)) else 0

/-- `max(0, (50 - scores.get("governance", 60)) / 50) if ... < 50`. -/
def evalLowGovernance (m : Metrics) : ℚ :=
  let s := m.governance.getD 60
  if s < 50 then max 0 ((50 - s) / 50) else 0

/-- `max(0, (20 - scores.get("phd_pct", 40)) / 20) if ... < 20`. -/
def evalLowStaffQualifications (m : Metrics) : ℚ :=
  let s := m.phd_pct.getD 40
  if s < 20 then max 0 ((20 - s) / 20) else 0

/-- `RISK_RULES`, in source order. -/
def RISK_RULES : List RiskRule :=
  [ ⟨"low_financial_score", "Low Financial Sustainability Score",
      "Financial theme score below 40 indicates high financial risk",
      1/4, evalLowFinancial⟩,
    ⟨"declining_enrollment", "Declining Student Enrollment",
      "Decreasing enrollment trend over 4 years",
      1/5, evalDecliningEnrollment⟩,
    ⟨"low_retention", "Low Student Retention Rate",
      "Retention rate below 70%",
      3/20, evalLowRetention⟩,
    ⟨"high_ssr", "High Student-Staff Ratio",
      "SSR above 35 indicates understaffing risk",
      3/20, evalHighSSR⟩,
    ⟨"low_governance", "Weak Governance Score",
      "Governance theme score below 50 indicates governance risk",
      3/20, evalLowGovernance⟩,
    ⟨"low_staff_qualifications", "Low Staff Qualifications",
      "PhD percentage below 20% is concerning",
      1/10, evalLowStaffQualifications⟩ ]

/-- One entry of `contributing_factors`. -/
structure Factor where
  rule_id : String
  name : String
  description : String
  raw_score : ℚ
  weighted_contribution : ℚ
deriving DecidableEq

/-- Result of `compute_risk_score`. -/
structure RiskResult where
  risk_score : ℚ
  risk_level : String
  contributing_factors : List Factor
  rules_evaluated : ℕ
deriving DecidableEq

/-- Stable insertion into a list sorted by `weighted_contribution`
descending (an equal-key element goes after existing ones, matching
Python's stable `list.sort(..., reverse=True)`). -/
def insertDesc (f : Factor) : List Factor → List Factor
  | [] => [f]
  | g :: t =>
    if g.weighted_contribution < f.weighted_contribution then f :: g :: t
    else g :: insertDesc f t

/-- Stable sort of the factors by contribution descending. -/
def sortFactorsDesc (fs : List Factor) : List Factor :=
  fs.foldl (fun acc f => insertDesc f acc) []

/-- The per-rule accumulation loop of `compute_risk_score`: running
`total_risk` and `contributing_factors` (in source rule order,
pre-sort). -/
def riskFold (m : Metrics) : ℚ × List Factor :=
  RISK_RULES.foldl
    (fun acc rule =>
      let raw := rule.evaluate m
      let weighted := raw * rule.weight
      let fs :=
        if 0 < raw then
          acc.2 ++ [⟨rule.id, rule.name, rule.description,
                     pyround 3 raw, pyround 3 weighted⟩]
        else acc.2
      (acc.1 + weighted, fs))
    (0, [])

/-- Embedding of `compute_risk_score`
(src/backend/app/ai/predictive/rule_based.py). -/
def compute_risk_score (m : Metrics) : RiskResult :=
  let acc := riskFold m
  let risk_score := min 1 (max 0 acc.1)
  let risk_level :=
    if 6/10 ≤ risk_score then "high"
    else if 3/10 ≤ risk_score then "medium"
    else "low"
  ⟨pyround 3 risk_score, risk_level, sortFactorsDesc acc.2,
    RISK_RULES.length⟩

end TNE.Risk

namespace TNE.Jobs

/-- One `ai_jobs` row (src/backend/app/models/ai_job.py); timestamps are
integer seconds. -/
structure AIJob where
  id : ℕ
  job_type : String
  status : String
  progress : ℚ
  error_message : Option String
  started_at : Option ℤ
  completed_at : Option ℤ
  created_at : ℤ
deriving DecidableEq

/-- Embedding of `get_job_status` (src/backend/app/api/v1/jobs.py): a
missing job is a 404 (`Except.error`), a found job is returned exactly as
persisted — there is no staleness handling on this read. -/
def get_job_status (job : Option AIJob) : Except Unit AIJob :=
  match job with
  | none => Except.error ()
  | some j => Except.ok j

/-- The WHERE filter of `get_active_report_job`
(src/backend/app/api/v1/reports.py): report-generation jobs whose status
is `queued` or `in_progress` (note: NOT the `processing` status the
workers actually write). -/
def reportJobFilter (j : AIJob) : Bool :=
  j.job_type == "report_generation" &&
    (j.status == "queued" || j.status == "in_progress")

/-- `ORDER BY created_at DESC LIMIT 1` over the filtered jobs. -/
def latestActiveReportJob (jobs : List AIJob) : Option AIJob :=
  jobs.foldl
    (fun acc j =>
      if reportJobFilter j then
        match acc with
        | none => some j
        | some b => if b.created_at < j.created_at then some j else acc
      else acc)
    none

/-- The stale-job mutation of `get_active_report_job`: status forced to
`failed`, error message `"Job timed out"`, `completed_at` stamped. -/
def failJob (now : ℤ) (j : AIJob) : AIJob :=
  { j with status := "failed", error_message := some "Job timed out",
           completed_at := some now }

/-- Embedding of `get_active_report_job`
(src/backend/app/api/v1/reports.py): returns the HTTP payload (`none` =
JSON null) and the job table after the read (the read COMMITS a mutation
when it auto-fails a stale job). Staleness is `created_at <
now - 10 minutes`, measured on `created_at`, not `started_at`. -/
def get_active_report_job (now : ℤ) (jobs : List AIJob) :
    Option AIJob × List AIJob :=
  match latestActiveReportJob jobs with
  | none => (none, jobs)
  | some j =>
    if j.created_at < now - 600 then
      (none, jobs.map (fun k => if k.id = j.id then failJob now k else k))
    else (some j, jobs)

end TNE.Jobs

namespace TNE.Trend

/-- Result of `calculate_trend`
(src/backend/app/services/calculation_service.py). -/
structure TrendResult where
  slope : Option ℚ
  direction : String
  pct_change : Option ℚ
deriving DecidableEq

/-- `clean = [v for v in values if v is not None]`. -/
def cleanVals (values : List (Option ℚ)) : List ℚ :=
  values.filterMap id

/-- `sum((i - x_mean) * (y - y_mean) for i, y in enumerate(clean))`. -/
def olsNumerator (clean : List ℚ) (xMean yMean : ℚ) : ℚ :=
  (clean.enum.map (fun p => ((p.1 : ℚ) - xMean) * (p.2 - yMean))).sum

/-- `sum((i - x_mean) ** 2 for i in range(n))`. -/
def olsDenominator (n : ℕ) (xMean : ℚ) : ℚ :=
  ((List.range n).map (fun i => ((i : ℚ) - xMean) ^ 2)).sum

/-- The OLS slope of `calculate_trend` (with its `denominator == 0`
guard). -/
def olsSlope (clean : List ℚ) : ℚ :=
  let n : ℚ := clean.length
  let xMean := (n - 1) / 2
  let yMean := clean.sum / n
  let num := olsNumerator clean xMean yMean
  let den := olsDenominator clean.length xMean
  if den = 0 then 0 else num / den

/-- The direction classification of `calculate_trend`: threshold is 1% of
the mean when the mean is non-zero, else the constant `0.01`. -/
def trendDirection (clean : List ℚ) : String :=
  let yMean := clean.sum / (clean.length : ℚ)
  let slope := olsSlope clean
  let threshold := if yMean ≠ 0 then 1/100 * yMean else 1/100
  if threshold < slope then "increasing"
  else if slope < -threshold then "decreasing"
  else "stable"

/-- Embedding of `calculate_trend`
(src/backend/app/services/calculation_service.py). -/
def calculate_trend (values : List (Option ℚ)) : TrendResult :=
  let clean := cleanVals values
  if clean.length < 2 then ⟨none, "insufficient_data", none⟩
  else
    let first := clean.headI
    let last := clean.getLastD 0
    let pct :=
      if first ≠ 0 then some (pyround 1 ((last - first) / first * 100))
      else none
    ⟨some (pyround 4 (olsSlope clean)), trendDirection clean, pct⟩

end TNE.Trend

namespace TNE.Text

/-- The JSONB payload of a free-text answer: `{"text": ...}` and/or
`{"value": ...}`. -/
structure TextValue where
  text : Option String := none
  value : Option String := none
deriving DecidableEq

/-- Python `a or b` on strings: the empty string is falsy. -/
def orStr (a b : String) : String := if a = "" then b else a

/-- Python's `str.strip()`: drop whitespace from both ends. -/
def pyStrip (s : String) : String :=
  String.mk
    (((s.data.dropWhile Char.isWhitespace).reverse.dropWhile
      Char.isWhitespace).reverse)

/-- The JSON object parsed out of the model's response by `score_text`;
each numeric field may be missing. The free-text `strengths` /
`weaknesses` / `feedback` fields only shape the feedback string and are
elided. -/
structure ParsedScores where
  total_score : Option ℚ := none
  relevance : Option ℚ := none
  specificity : Option ℚ := none
  evidence : Option ℚ := none
  comprehensiveness : Option ℚ := none
deriving DecidableEq

/-- Outcome of the Claude call plus JSON parse inside `score_text`:
either a parsed object or any exception (network failure, parse
failure). -/
inductive ClaudeOutcome where
  | ok (p : ParsedScores)
  | err
deriving DecidableEq

/-- `total = scores.get("total_score", 0)`, replaced by the sum of the
four dimension sub-scores when it is exactly zero. -/
def computedTotal (p : ParsedScores) : ℚ :=
  let total := p.total_score.getD 0
  if total = 0 then
    p.relevance.getD 0 + p.specificity.getD 0 + p.evidence.getD 0 +
      p.comprehensiveness.getD 0
  else total

/-- What `score_text` returns for a non-`None` value: the nullable score
of the result dict, plus whether the Claude service was invoked on the
way. -/
structure TextScoreOut where
  score : Option ℚ
  called_service : Bool
deriving DecidableEq

/-- Embedding of `score_text` (src/backend/app/ai/scoring/text.py).
The outer `Option` is the Python `None` return for a `None` value; the
`resp` argument stands for the outcome of the `call_claude` + JSON-parse
step, and `called_service` records whether execution reached that call. -/
def score_text (value : Option TextValue) (resp : ClaudeOutcome) :
    Option TextScoreOut :=
  match value with
  | none => none
  | some v =>
    let text_value := orStr (v.text.getD "") (v.value.getD "")
    if text_value = "" ∨ (pyStrip text_value).length < 10 then
      some ⟨some 0, false⟩
    else
      match resp with
      | ClaudeOutcome.ok p =>
        some ⟨some (min 100 (max 0 (computedTotal p))), true⟩
      | ClaudeOutcome.err => some ⟨none, true⟩

end TNE.Text

namespace TNE

/-- A 600-character evidence string. -/
def ev600 : String := String.mk (List.replicate 600 'a')

/-- A job that a worker set to `processing` at time 0 and then abandoned. -/
def staleProcessingJob : Jobs.AIJob :=
  ⟨0, "report_generation", "processing", 1/10, none, some 0, none, 0⟩

/-- A report job stuck in `queued` since time 0. -/
def staleQueuedJob : Jobs.AIJob :=
  ⟨1, "report_generation", "queued", 0, none, none, none, 0⟩

/-- A metrics map whose only entry is a decreasing enrollment trend. -/
def decliningMetrics : Risk.Metrics := { enrollment_trend := some "decreasing" }

/-- The `contributing_factors` entry the declining-enrollment rule emits. -/
def decliningFactor : Risk.Factor :=
  ⟨"declining_enrollment", "Declining Student Enrollment",
    "Decreasing enrollment trend over 4 years", 4/5, 4/25⟩

end TNE

namespace TNE

set_option maxRecDepth 10000 in
/-- `ev600` has 600 characters. -/
theorem ev600_length : ev600.length = 600 := by decide

/-- `ev600` is a non-empty (truthy) string. -/
theorem ev600_ne_empty : ev600 ≠ "" := by simp [ev600]

/-! ## Claim C1 -/

/-- C1 (code bug): the spec says the overall score is null iff every
theme's weighted score is null — even a weighted score of exactly 0 should
yield an overall score of 0, not null. The code's `any(ts.weighted_score
for ...)` tests Python TRUTHINESS, so an assessment whose only weighted
theme score is exactly `0.0` gets a null overall score, while the
spec-side computation gives `0`: the code diverges from the claim at this
input. -/
theorem claim_C1_overall_null_at_zero :
    Aggregate.overallScore [some 0] = none ∧
    Aggregate.overallScoreSpec [some 0] = some 0 ∧
    Aggregate.overallScore [some 0] ≠ Aggregate.overallScoreSpec [some 0] := by
  have h1 : Aggregate.overallScore [some 0] = none := by
    simp [Aggregate.overallScore]
  have h2 : Aggregate.overallScoreSpec [some 0] = some 0 := by
    simp [Aggregate.overallScoreSpec]
  exact ⟨h1, h2, by rw [h1, h2]; simp⟩

/-! ## Claim C2 -/

/-- C2 counterexample: under a `binary_with_evidence` rubric with 600
characters of evidence, a `no` answer scores `0.3*0 + 0.7*85 = 59.5`, not
0; and a `yes` answer scores `0.3*100 + 0.7*85 = 89.5`, not the claimed
85.5. -/
theorem claim_C2_counterexample :
    Binary.score_binary (some ⟨some false, some ev600⟩)
        (some ⟨"binary_with_evidence"⟩) = some (119/2) ∧
    (119/2 : ℚ) ≠ 0 ∧
    Binary.score_binary (some ⟨some true, some ev600⟩)
        (some ⟨"binary_with_evidence"⟩) = some (179/2) ∧
    (179/2 : ℚ) ≠ 171/2 := by
  refine ⟨?_, by norm_num, ?_, by norm_num⟩ <;>
    norm_num [Binary.score_binary, Binary.evidenceQuality, pyround,
      roundHalfEven, ev600_length, ev600_ne_empty]

/-- C2 amended: a yes answer with no evidence scores 100 under every
rubric; a no answer scores 0 when the evidence is at most 50 characters
(any rubric) or when the rubric is not `binary_with_evidence` (any
evidence); and a yes answer with 600 characters of evidence under a
binary-with-evidence rubric scores `0.3*100 + 0.7*85 = 89.5`. -/
theorem claim_C2_amended :
    (∀ rub : Option Binary.BinRubric,
      Binary.score_binary (some ⟨some true, none⟩) rub = some 100) ∧
    (∀ (ev : String) (rub : Option Binary.BinRubric), ev.length ≤ 50 →
      Binary.score_binary (some ⟨some false, some ev⟩) rub = some 0) ∧
    (∀ (ev : String) (rub : Option Binary.BinRubric),
      (∀ r, rub = some r → r.rtype ≠ "binary_with_evidence") →
      Binary.score_binary (some ⟨some false, some ev⟩) rub = some 0) ∧
    Binary.score_binary (some ⟨some true, some ev600⟩)
        (some ⟨"binary_with_evidence"⟩) = some (179/2) := by
  refine ⟨?_, ?_, ?_, ?_⟩
  · intro rub
    cases rub with
    | none => rfl
    | some r =>
      simp only [Binary.score_binary]
      split <;> simp
  · intro ev rub hlen
    cases rub with
    | none => rfl
    | some r =>
      simp only [Binary.score_binary]
      split
      · have : ¬ (50 : ℕ) < ev.length := by omega
        simp [Option.getD, this]
      · simp
  · intro ev rub hrub
    cases rub with
    | none => rfl
    | some r =>
      have : r.rtype ≠ "binary_with_evidence" := hrub r rfl
      simp [Binary.score_binary, this]
  · norm_num [Binary.score_binary, Binary.evidenceQuality, pyround,
      roundHalfEven, ev600_length, ev600_ne_empty]

/-- C2 witness: the amended theorem applied at concrete inputs. -/
theorem claim_C2_witness :
    Binary.score_binary (some ⟨some false, some "short"⟩)
        (some ⟨"binary_with_evidence"⟩) = some 0 ∧
    Binary.score_binary (some ⟨some false, some ev600⟩)
        (some ⟨"simple"⟩) = some 0 ∧
    Binary.score_binary (some ⟨some true, none⟩) none = some 100 :=
  ⟨claim_C2_amended.2.1 "short" (some ⟨"binary_with_evidence"⟩) (by decide),
   claim_C2_amended.2.2.1 ev600 (some ⟨"simple"⟩)
     (by intro r hr hty; cases hr; exact absurd hty (by decide)),
   claim_C2_amended.1 none⟩

/-! ## Claim C7 -/

/-- C7: on `{TL07: {value: 50}, TL06: {value: 40}}` with the model pass
disabled, the consistency checker returns exactly one issue — high
severity, rule id `staff_count_vs_phd` (PhD staff must not exceed total
academic staff) — with an AI issue count of 0; no other rule, all lacking
their operands, is flagged. -/
theorem claim_C7_consistency_staff_count :
    Consistency.check_consistency_noAI
        [("TL07", ⟨some 50⟩), ("TL06", ⟨some 40⟩)] =
      ⟨false,
        [⟨"high", "staff_count_vs_phd",
          "PhD staff cannot exceed total academic staff"⟩], 1, 0⟩ := by
  simp [Consistency.check_consistency_noAI, Consistency.run_rule_checks,
    Consistency.CONSISTENCY_RULES, Consistency.leRule, Consistency.pctRule,
    Consistency.getValue, Consistency.orFalsy, Consistency.lookupCode]
  norm_num

end TNE

namespace TNE

/-! ## Claim C3 -/

/-- If the ranges are pairwise disjoint and a member range contains `v`,
the first-match loop returns that range's score. -/
theorem findRangeScore_mem (rs : List Numeric.Range) (v : ℚ)
    (hdisj : rs.Pairwise (fun r1 r2 => ∀ x : ℚ,
      ¬(Numeric.rangeContains r1 x ∧ Numeric.rangeContains r2 x)))
    (r : Numeric.Range) (hr : r ∈ rs) (hc : Numeric.rangeContains r v) :
    Numeric.findRangeScore rs v = some r.score := by
  induction rs with
  | nil => cases hr
  | cons a t ih =>
    rw [List.pairwise_cons] at hdisj
    rcases List.mem_cons.mp hr with rfl | hmem
    · simp [Numeric.findRangeScore, hc]
    · have ha : ¬ (Numeric.rangeContains a v = true) := by
        intro hav
        exact hdisj.1 r hmem v ⟨hav, hc⟩
      simp only [Numeric.findRangeScore]
      rw [if_neg ha]
      exact ih hdisj.2 hmem

/-- If no range contains `v`, the first-match loop returns `none`. -/
theorem findRangeScore_none (rs : List Numeric.Range) (v : ℚ)
    (h : ∀ r ∈ rs, ¬ Numeric.rangeContains r v) :
    Numeric.findRangeScore rs v = none := by
  induction rs with
  | nil => rfl
  | cons a t ih =>
    simp only [Numeric.findRangeScore]
    rw [if_neg (h a (List.mem_cons_self a t))]
    exact ih (fun r hr => h r (List.mem_cons_of_mem a hr))

/-- C3: for every numeric value and every rubric whose ranges are
half-open intervals `[min, max)` that are pairwise non-overlapping, the
Numeric-Range scorer returns the configured score of the (unique) range
containing the value, and a null score when the value lies outside every
range. -/
theorem claim_C3_numeric_range (rs : List Numeric.Range) (v : ℚ)
    (hhalf : ∀ r ∈ rs, r.lo.isSome ∧ r.hi.isSome)
    (hdisj : rs.Pairwise (fun r1 r2 => ∀ x : ℚ,
      ¬(Numeric.rangeContains r1 x ∧ Numeric.rangeContains r2 x))) :
    (∀ r ∈ rs, Numeric.rangeContains r v →
      Numeric.score_numeric (some v) (some rs) = some r.score) ∧
    ((∀ r ∈ rs, ¬ Numeric.rangeContains r v) →
      Numeric.score_numeric (some v) (some rs) = none) := by
  constructor
  · intro r hr hc
    have hne : rs ≠ [] := by rintro rfl; cases hr
    simp only [Numeric.score_numeric]
    rw [if_neg hne]
    exact findRangeScore_mem rs v hdisj r hr hc
  · intro h
    simp only [Numeric.score_numeric]
    by_cases hrs : rs = []
    · rw [if_pos hrs]
    · rw [if_neg hrs]
      exact findRangeScore_none rs v h

/-- C3 witness: the theorem applied to the two-interval rubric
`[0,10) → 100, [10,20) → 75` at the in-range value 15 and the
out-of-range value 25. -/
theorem claim_C3_witness :
    Numeric.score_numeric (some 15)
        (some [⟨some 0, some 10, 100⟩, ⟨some 10, some 20, 75⟩]) = some 75 ∧
    Numeric.score_numeric (some 25)
        (some [⟨some 0, some 10, 100⟩, ⟨some 10, some 20, 75⟩]) = none := by
  have hhalf : ∀ r ∈ ([⟨some 0, some 10, 100⟩, ⟨some 10, some 20, 75⟩] :
      List Numeric.Range), r.lo.isSome ∧ r.hi.isSome := by
    intro r hr
    rcases List.mem_cons.mp hr with rfl | hr
    · exact ⟨rfl, rfl⟩
    · rcases List.mem_cons.mp hr with rfl | hr
      · exact ⟨rfl, rfl⟩
      · cases hr
  have hdisj : ([⟨some 0, some 10, 100⟩, ⟨some 10, some 20, 75⟩] :
      List Numeric.Range).Pairwise (fun r1 r2 => ∀ x : ℚ,
        ¬(Numeric.rangeContains r1 x ∧ Numeric.rangeContains r2 x)) := by
    refine List.Pairwise.cons ?_ (List.pairwise_singleton _ _)
    intro r2 hr2 x hx
    rcases List.mem_cons.mp hr2 with rfl | hr2
    · have h1 := hx.1
      have h2 := hx.2
      simp only [Numeric.rangeContains, Bool.and_eq_true, decide_eq_true_eq]
        at h1 h2
      linarith [h1.2, h2.1]
    · cases hr2
  refine ⟨(claim_C3_numeric_range _ 15 hhalf hdisj).1
      ⟨some 10, some 20, 75⟩
      (List.mem_cons_of_mem _ (List.mem_cons_self _ _)) ?_,
    (claim_C3_numeric_range _ 25 hhalf hdisj).2 ?_⟩
  · simp only [Numeric.rangeContains, Bool.and_eq_true, decide_eq_true_eq]
    norm_num
  · intro r hr
    rcases List.mem_cons.mp hr with rfl | hr
    · simp only [Numeric.rangeContains, Bool.and_eq_true, decide_eq_true_eq,
        not_and]
      norm_num
    · rcases List.mem_cons.mp hr with rfl | hr
      · simp only [Numeric.rangeContains, Bool.and_eq_true,
          decide_eq_true_eq, not_and]
        norm_num
      · cases hr

end TNE

namespace TNE

/-! ## Claim C4 -/

/-- Unfolding `scoredWeightedSum` over a scored head element. -/
theorem scoredWeightedSum_cons_some (s : ℚ) (w : ℚ)
    (t : List Aggregate.ScoredItem) :
    Aggregate.scoredWeightedSum ((some s, w) :: t) =
      s * w + Aggregate.scoredWeightedSum t := by
  simp [Aggregate.scoredWeightedSum, List.filter_cons]

/-- Unfolding `scoredWeightedSum` over an unscored head element. -/
theorem scoredWeightedSum_cons_none (w : ℚ)
    (t : List Aggregate.ScoredItem) :
    Aggregate.scoredWeightedSum ((none, w) :: t) =
      Aggregate.scoredWeightedSum t := by
  simp [Aggregate.scoredWeightedSum, List.filter_cons]

/-- Unfolding `scoredWeightSum` over a scored head element. -/
theorem scoredWeightSum_cons_some (s : ℚ) (w : ℚ)
    (t : List Aggregate.ScoredItem) :
    Aggregate.scoredWeightSum ((some s, w) :: t) =
      w + Aggregate.scoredWeightSum t := by
  simp [Aggregate.scoredWeightSum, List.filter_cons]

/-- Unfolding `scoredWeightSum` over an unscored head element. -/
theorem scoredWeightSum_cons_none (w : ℚ)
    (t : List Aggregate.ScoredItem) :
    Aggregate.scoredWeightSum ((none, w) :: t) =
      Aggregate.scoredWeightSum t := by
  simp [Aggregate.scoredWeightSum, List.filter_cons]

/-- The accumulation loop of `calculate_theme_scores` computes exactly the
spec's two sums over the non-null-scored answers. -/
theorem themeSums_eq (rs : List Aggregate.ScoredItem) :
    Aggregate.themeSums rs =
      (Aggregate.scoredWeightedSum rs, Aggregate.scoredWeightSum rs) := by
  have aux : ∀ (l : List Aggregate.ScoredItem) (acc : ℚ × ℚ),
      l.foldl
        (fun acc p =>
          match p.1 with
          | some s => (acc.1 + s * p.2, acc.2 + p.2)
          | none => acc) acc =
      (acc.1 + Aggregate.scoredWeightedSum l,
       acc.2 + Aggregate.scoredWeightSum l) := by
    intro l
    induction l with
    | nil =>
      intro acc
      simp [Aggregate.scoredWeightedSum, Aggregate.scoredWeightSum]
    | cons p t ih =>
      intro acc
      rcases p with ⟨op, w⟩
      cases op with
      | some s =>
        rw [List.foldl_cons]
        simp only []
        rw [ih, scoredWeightedSum_cons_some, scoredWeightSum_cons_some]
        dsimp only
        rw [Prod.mk.injEq]
        exact ⟨by ring, by ring⟩
      | none =>
        rw [List.foldl_cons]
        simp only []
        rw [ih, scoredWeightedSum_cons_none, scoredWeightSum_cons_none]
  unfold Aggregate.themeSums
  rw [aux]
  simp

/-- With positive item weights, the scored-weight total is nonnegative. -/
theorem scoredWeightSum_nonneg (rs : List Aggregate.ScoredItem)
    (hw : ∀ p ∈ rs, 0 < p.2) : 0 ≤ Aggregate.scoredWeightSum rs := by
  induction rs with
  | nil => simp [Aggregate.scoredWeightSum]
  | cons p t ih =>
    have hp := hw p (List.mem_cons_self p t)
    have ht := ih (fun q hq => hw q (List.mem_cons_of_mem p hq))
    rcases p with ⟨op, w⟩
    cases op with
    | some s => rw [scoredWeightSum_cons_some]; dsimp at hp; linarith
    | none => rw [scoredWeightSum_cons_none]; exact ht

/-- With positive item weights, the scored-weight total is positive iff
some answer in the theme has a non-null score. -/
theorem scoredWeightSum_pos_iff (rs : List Aggregate.ScoredItem)
    (hw : ∀ p ∈ rs, 0 < p.2) :
    0 < Aggregate.scoredWeightSum rs ↔
      rs.any (fun p => p.1.isSome) = true := by
  induction rs with
  | nil => simp [Aggregate.scoredWeightSum]
  | cons p t ih =>
    have hp := hw p (List.mem_cons_self p t)
    have hwt : ∀ q ∈ t, 0 < q.2 := fun q hq => hw q (List.mem_cons_of_mem p hq)
    have ht := ih hwt
    rcases p with ⟨op, w⟩
    cases op with
    | some s =>
      rw [scoredWeightSum_cons_some]
      have hnn := scoredWeightSum_nonneg t hwt
      dsimp at hp
      have hpos : (0:ℚ) < w + Aggregate.scoredWeightSum t := by linarith
      simp [hpos]
    | none =>
      rw [scoredWeightSum_cons_none]
      simpa using ht

/-- C4 counterexample: the claim says the normalised score EQUALS the
weighted mean, but the code rounds it to 2 decimal places: for scores
{100, 50} with weights {1, 2} the code stores 66.67, while the weighted
mean is 200/3 = 66.666... . -/
theorem claim_C4_counterexample :
    Aggregate.themeNormalised [(some 100, 1), (some 50, 2)] =
      some (6667/100) ∧
    (6667/100 : ℚ) ≠ (100 * 1 + 50 * 2) / (1 + 2) := by
  constructor
  · norm_num [Aggregate.themeNormalised, Aggregate.themeSums, pyround,
      roundHalfEven]
  · norm_num

/-- C4 amended: with positive item weights, the theme's normalised score
is the weighted mean `Σ(answerScore × itemWeight) / Σ(itemWeight)` over
only the answers with a non-null score, ROUNDED HALF-TO-EVEN TO 2 DECIMAL
PLACES; a theme with zero scored answers gets a null score. -/
theorem claim_C4_amended (rs : List Aggregate.ScoredItem)
    (hw : ∀ p ∈ rs, 0 < p.2) :
    Aggregate.themeNormalised rs =
      if rs.any (fun p => p.1.isSome) then
        some (pyround 2
          (Aggregate.scoredWeightedSum rs / Aggregate.scoredWeightSum rs))
      else none := by
  simp only [Aggregate.themeNormalised, themeSums_eq]
  by_cases h : rs.any (fun p => p.1.isSome) = true
  · rw [if_pos ((scoredWeightSum_pos_iff rs hw).mpr h), if_pos h]
  · rw [if_neg (fun hpos => h ((scoredWeightSum_pos_iff rs hw).mp hpos)),
      if_neg h]

/-- C4 witness: for item weights {1, 1, 2} and answer scores
{100, 50, null}, the normalised score is (100*1 + 50*1)/(1+1) = 75,
independent of the unscored item's weight. -/
theorem claim_C4_witness :
    Aggregate.themeNormalised [(some 100, 1), (some 50, 1), (none, 2)] =
      some 75 := by
  have h := claim_C4_amended [(some 100, 1), (some 50, 1), (none, 2)]
    (by
      intro p hp
      rcases List.mem_cons.mp hp with rfl | hp
      · norm_num
      · rcases List.mem_cons.mp hp with rfl | hp
        · norm_num
        · rcases List.mem_cons.mp hp with rfl | hp
          · norm_num
          · cases hp)
  rw [h]
  norm_num [Aggregate.scoredWeightedSum, Aggregate.scoredWeightSum,
    List.filter_cons, pyround, roundHalfEven]

end TNE

namespace TNE

/-! ## Claim C5 -/

/-- C5 counterexample: a job persisted as `processing` whose `started_at`
(time 0) is 11 minutes before the read (time 660) is returned by the
job-status endpoint exactly as persisted — status `processing`, not
failed — and the active-report-job read does not select it at all (its
filter only matches `queued` / `in_progress`), so no read reports it as
timed out. -/
theorem claim_C5_counterexample :
    Jobs.get_job_status (some staleProcessingJob) =
      Except.ok staleProcessingJob ∧
    staleProcessingJob.status = "processing" ∧
    staleProcessingJob.started_at = some 0 ∧
    staleProcessingJob.created_at < 660 - 600 ∧
    Jobs.get_active_report_job 660 [staleProcessingJob] =
      (none, [staleProcessingJob]) := by
  refine ⟨rfl, rfl, rfl, by norm_num [staleProcessingJob], ?_⟩
  simp [Jobs.get_active_report_job, Jobs.latestActiveReportJob,
    Jobs.reportJobFilter, staleProcessingJob]

/-- C5 amended: the generic job-status read returns the persisted record
unchanged (no staleness handling); the active-report-job read only
selects `report_generation` jobs in `queued`/`in_progress` (never
`processing`), uses `created_at` — not `started_at` — against a 10-minute
cutoff, and when the selected job is stale it reports no active job and
unconditionally mutates the record to `failed` ("Job timed out"); a
fresh selected job is returned unmutated. -/
theorem claim_C5_amended :
    (∀ j : Jobs.AIJob, Jobs.get_job_status (some j) = Except.ok j) ∧
    (∀ j : Jobs.AIJob, j.status = "processing" →
      Jobs.reportJobFilter j = false) ∧
    (∀ (now : ℤ) (jobs : List Jobs.AIJob) (j : Jobs.AIJob),
      Jobs.latestActiveReportJob jobs = some j →
      j.created_at < now - 600 →
      Jobs.get_active_report_job now jobs =
        (none, jobs.map
          (fun k => if k.id = j.id then Jobs.failJob now k else k))) ∧
    (∀ (now : ℤ) (jobs : List Jobs.AIJob) (j : Jobs.AIJob),
      Jobs.latestActiveReportJob jobs = some j →
      ¬(j.created_at < now - 600) →
      Jobs.get_active_report_job now jobs = (some j, jobs)) := by
  refine ⟨fun j => rfl, ?_, ?_, ?_⟩
  · intro j h
    simp [Jobs.reportJobFilter, h]
  · intro now jobs j hj hstale
    simp [Jobs.get_active_report_job, hj, hstale]
  · intro now jobs j hj hstale
    simp [Jobs.get_active_report_job, hj, hstale]

/-- C5 witness: the amended theorem applied to a queued report job created
at time 0 and read at time 660. -/
theorem claim_C5_witness :
    Jobs.get_active_report_job 660 [staleQueuedJob] =
      (none, [Jobs.failJob 660 staleQueuedJob]) ∧
    Jobs.reportJobFilter staleProcessingJob = false := by
  constructor
  · have h := claim_C5_amended.2.2.1 660 [staleQueuedJob] staleQueuedJob
      (by simp [Jobs.latestActiveReportJob, Jobs.reportJobFilter,
        staleQueuedJob])
      (by norm_num [staleQueuedJob])
    rw [h]
    simp
  · exact claim_C5_amended.2.1 staleProcessingJob rfl

/-! ## Claim C6 -/

/-- Membership is preserved by the stable descending insertion. -/
theorem mem_insertDesc (a f : Risk.Factor) (l : List Risk.Factor) :
    a ∈ Risk.insertDesc f l ↔ a = f ∨ a ∈ l := by
  induction l with
  | nil => simp [Risk.insertDesc]
  | cons g t ih =>
    simp only [Risk.insertDesc]
    split
    · simp [List.mem_cons]
    · simp only [List.mem_cons, ih]
      tauto

/-- Membership is preserved by the descending factor sort. -/
theorem mem_sortFactorsDesc (a : Risk.Factor) (l : List Risk.Factor) :
    a ∈ Risk.sortFactorsDesc l ↔ a ∈ l := by
  have aux : ∀ (l acc : List Risk.Factor),
      a ∈ l.foldl (fun acc f => Risk.insertDesc f acc) acc ↔
        a ∈ acc ∨ a ∈ l := by
    intro l
    induction l with
    | nil => intro acc; simp
    | cons f t ih =>
      intro acc
      rw [List.foldl_cons, ih, mem_insertDesc]
      simp [List.mem_cons]
      tauto
  unfold Risk.sortFactorsDesc
  rw [aux]
  simp

/-- C6 counterexample: with `enrollment_trend = "decreasing"` and no other
metrics, the declining-enrollment rule contributes `0.8 × 0.20 = 0.16` —
not its full 0.20 weight — and the whole risk score is 0.16. -/
theorem claim_C6_counterexample :
    (Risk.compute_risk_score decliningMetrics).risk_score = 4/25 ∧
    (Risk.compute_risk_score decliningMetrics).contributing_factors =
      [decliningFactor] ∧
    decliningFactor.weighted_contribution = 4/25 ∧
    (4/25 : ℚ) ≠ 1/5 := by
  refine ⟨?_, ?_, by norm_num [decliningFactor], by norm_num⟩ <;>
    norm_num [Risk.compute_risk_score, Risk.riskFold, Risk.RISK_RULES,
      Risk.evalLowFinancial, Risk.evalDecliningEnrollment,
      Risk.evalLowRetention, Risk.evalHighSSR, Risk.evalLowGovernance,
      Risk.evalLowStaffQualifications, Risk.sortFactorsDesc,
      Risk.insertDesc, decliningMetrics, decliningFactor, pyround,
      roundHalfEven]

/-- C6 amended: whenever the metrics map has `enrollment_trend =
"decreasing"`, the declining-enrollment rule fires with raw score 0.8 and
contributes exactly `0.8 × 0.20 = 0.16` (not the full 0.20 weight) to the
risk score, and a factor with that contribution appears in the result's
contributing factors. -/
theorem claim_C6_amended (m : Risk.Metrics)
    (h : m.enrollment_trend = some "decreasing") :
    Risk.evalDecliningEnrollment m * (1/5) = 4/25 ∧
    decliningFactor ∈ (Risk.compute_risk_score m).contributing_factors := by
  have hd : Risk.evalDecliningEnrollment m = 4/5 := by
    simp [Risk.evalDecliningEnrollment, h]
    norm_num
  refine ⟨by rw [hd]; norm_num, ?_⟩
  simp only [Risk.compute_risk_score, mem_sortFactorsDesc]
  have hfac : decliningFactor =
      ⟨"declining_enrollment", "Declining Student Enrollment",
        "Decreasing enrollment trend over 4 years",
        pyround 3 (Risk.evalDecliningEnrollment m),
        pyround 3 (Risk.evalDecliningEnrollment m * (1/5))⟩ := by
    rw [hd]
    norm_num [decliningFactor, pyround, roundHalfEven]
  simp only [Risk.riskFold, Risk.RISK_RULES, List.foldl_cons,
    List.foldl_nil]
  rw [hd]
  norm_num
  split_ifs <;> simp [hfac, hd] <;> norm_num [pyround, roundHalfEven]

/-- C6 witness: the amended theorem applied to the metrics map whose only
entry is a decreasing enrollment trend. -/
theorem claim_C6_witness :
    Risk.evalDecliningEnrollment decliningMetrics * (1/5) = 4/25 ∧
    decliningFactor ∈
      (Risk.compute_risk_score decliningMetrics).contributing_factors :=
  claim_C6_amended decliningMetrics rfl

end TNE

namespace TNE

/-! ## Claim C8 -/

/-- Cleaning (dropping nulls) commutes with scaling every value. -/
theorem cleanVals_map (values : List (Option ℚ)) (f : ℚ → ℚ) :
    Trend.cleanVals (values.map (Option.map f)) =
      (Trend.cleanVals values).map f := by
  unfold Trend.cleanVals
  rw [List.filterMap_map, List.map_filterMap]
  rfl

/-- Sum of a scaled list is the scaled sum. -/
theorem sum_map_mul (c : ℚ) (l : List ℚ) :
    (l.map (fun v => c * v)).sum = c * l.sum := by
  induction l with
  | nil => simp
  | cons a t ih => simp [ih]; ring

/-- The OLS numerator over a scaled series (with a mean scaled the same
way) is the scaled numerator. -/
theorem olsNumerator_map (c : ℚ) (clean : List ℚ) (xM yM : ℚ) :
    Trend.olsNumerator (clean.map (fun v => c * v)) xM (c * yM) =
      c * Trend.olsNumerator clean xM yM := by
  unfold Trend.olsNumerator
  rw [List.enum_map, List.map_map]
  have hfun : ((fun p : ℕ × ℚ => ((p.1 : ℚ) - xM) * (p.2 - c * yM)) ∘
      Prod.map id (fun v => c * v)) =
      (fun v => c * v) ∘ (fun p : ℕ × ℚ => ((p.1 : ℚ) - xM) * (p.2 - yM)) := by
    funext p
    simp [Prod.map]
    ring
  rw [hfun, ← List.map_map, sum_map_mul]

/-- The OLS slope of a scaled series is the scaled slope. -/
theorem olsSlope_map (c : ℚ) (clean : List ℚ) :
    Trend.olsSlope (clean.map (fun v => c * v)) =
      c * Trend.olsSlope clean := by
  simp only [Trend.olsSlope, List.length_map, sum_map_mul]
  rw [mul_div_assoc c clean.sum, olsNumerator_map]
  by_cases hden :
      Trend.olsDenominator clean.length (((clean.length : ℚ) - 1) / 2) = 0
  · rw [if_pos hden, if_pos hden, mul_zero]
  · rw [if_neg hden, if_neg hden, mul_div_assoc]

/-- With a non-zero series mean, the classified direction is invariant
under scaling by a positive constant. -/
theorem trendDirection_map (c : ℚ) (hc : 0 < c) (clean : List ℚ)
    (hm : clean.sum / (clean.length : ℚ) ≠ 0) :
    Trend.trendDirection (clean.map (fun v => c * v)) =
      Trend.trendDirection clean := by
  simp only [Trend.trendDirection, List.length_map, sum_map_mul]
  rw [mul_div_assoc c clean.sum, olsSlope_map]
  have hcy : c * (clean.sum / (clean.length : ℚ)) ≠ 0 :=
    mul_ne_zero (ne_of_gt hc) hm
  rw [if_pos hcy, if_pos hm]
  have h1 : (1/100 * (c * (clean.sum / (clean.length : ℚ))) <
      c * Trend.olsSlope clean) ↔
      (1/100 * (clean.sum / (clean.length : ℚ)) < Trend.olsSlope clean) := by
    rw [show (1:ℚ)/100 * (c * (clean.sum / (clean.length : ℚ))) =
      c * (1/100 * (clean.sum / (clean.length : ℚ))) by ring]
    exact mul_lt_mul_left hc
  have h2 : (c * Trend.olsSlope clean <
      -(1/100 * (c * (clean.sum / (clean.length : ℚ))))) ↔
      (Trend.olsSlope clean <
        -(1/100 * (clean.sum / (clean.length : ℚ)))) := by
    rw [show -((1:ℚ)/100 * (c * (clean.sum / (clean.length : ℚ)))) =
      c * (-(1/100 * (clean.sum / (clean.length : ℚ)))) by ring]
    exact mul_lt_mul_left hc
  rw [if_congr h1 rfl (if_congr h2 rfl rfl)]

/-- C8 counterexample: the series `[-1, 1]` has mean 0, so the fallback
threshold `0.01` is used; it classifies as increasing (slope 2), but the
same series scaled by the positive constant `1/200` has slope `0.01`,
which no longer exceeds `0.01`: the direction flips to stable. -/
theorem claim_C8_counterexample :
    (0 : ℚ) < 1/200 ∧
    (Trend.calculate_trend [some (-1), some 1]).direction = "increasing" ∧
    (Trend.calculate_trend (([some (-1), some 1] : List (Option ℚ)).map
        (Option.map (fun v => 1/200 * v)))).direction = "stable" := by
  refine ⟨by norm_num, ?_, ?_⟩ <;>
    norm_num [Trend.calculate_trend, Trend.cleanVals, Trend.trendDirection,
      Trend.olsSlope, Trend.olsNumerator, Trend.olsDenominator,
      List.filterMap_cons, List.enum, List.enumFrom, List.range_succ]

/-- C8 amended: scaling a series by a positive constant never changes the
classified trend direction PROVIDED the series mean is non-zero; when the
mean is exactly zero the code falls back to the absolute threshold 0.01,
which is not scale-invariant. -/
theorem claim_C8_amended (values : List (Option ℚ)) (c : ℚ) (hc : 0 < c)
    (hm : (Trend.cleanVals values).sum /
      ((Trend.cleanVals values).length : ℚ) ≠ 0) :
    (Trend.calculate_trend
        (values.map (Option.map (fun v => c * v)))).direction =
      (Trend.calculate_trend values).direction := by
  simp only [Trend.calculate_trend, cleanVals_map, List.length_map]
  by_cases hlen : (Trend.cleanVals values).length < 2
  · rw [if_pos hlen, if_pos hlen]
  · rw [if_neg hlen, if_neg hlen]
    exact trendDirection_map c hc _ hm

/-- C8 witness: the amended theorem applied to the series `[1, 2]`
(mean 3/2 ≠ 0) scaled by 2. -/
theorem claim_C8_witness :
    (Trend.calculate_trend (([some (1:ℚ), some 2] : List (Option ℚ)).map
        (Option.map (fun v => 2 * v)))).direction =
      (Trend.calculate_trend [some (1:ℚ), some 2]).direction :=
  claim_C8_amended [some 1, some 2] 2 (by norm_num)
    (by norm_num [Trend.cleanVals, List.filterMap_cons])

end TNE

namespace TNE

/-! ## Claim C9 -/

/-- C9 counterexample: the claim says the returned score IS the parsed
total, but the code clamps it to [0, 100]: a successfully parsed response
with `total_score = 150` returns score 100, not 150. -/
theorem claim_C9_counterexample :
    Text.score_text (some { text := some "a sufficiently long answer" })
        (Text.ClaudeOutcome.ok { total_score := some 150 }) =
      some ⟨some 100, true⟩ ∧
    (100 : ℚ) ≠ 150 := by
  constructor
  · simp [Text.score_text, Text.orStr, Text.computedTotal]
    norm_num
    decide
  · norm_num

/-- C9 amended: an answer whose resolved text is empty or shorter than 10
characters after stripping is scored 0 without any call to the
text-evaluation service (the result is independent of the service
outcome); and when the model response parses successfully, the returned
score is the parsed total — with a parsed total of exactly zero replaced
by the sum of the four dimension sub-scores — CLAMPED to [0, 100]. -/
theorem claim_C9_amended :
    (∀ (v : Text.TextValue) (resp : Text.ClaudeOutcome),
      (Text.orStr (v.text.getD "") (v.value.getD "") = "" ∨
        (Text.pyStrip (Text.orStr (v.text.getD "")
        (v.value.getD ""))).length < 10) →
      Text.score_text (some v) resp = some ⟨some 0, false⟩) ∧
    (∀ (v : Text.TextValue) (p : Text.ParsedScores),
      ¬(Text.orStr (v.text.getD "") (v.value.getD "") = "" ∨
        (Text.pyStrip (Text.orStr (v.text.getD "")
          (v.value.getD ""))).length < 10) →
      Text.score_text (some v) (Text.ClaudeOutcome.ok p) =
        some ⟨some (min 100 (max 0 (Text.computedTotal p))), true⟩) := by
  constructor
  · intro v resp hshort
    simp only [Text.score_text]
    rw [if_pos hshort]
  · intro v p hlong
    simp only [Text.score_text]
    rw [if_neg hlong]

/-- C9 witness: the amended theorem applied to a 5-character answer (with
two different service outcomes, showing the service is not consulted) and
to a long answer whose parsed total is 150. -/
theorem claim_C9_witness :
    Text.score_text (some { text := some "short" })
        (Text.ClaudeOutcome.ok { total_score := some 150 }) =
      some ⟨some 0, false⟩ ∧
    Text.score_text (some { text := some "short" }) Text.ClaudeOutcome.err =
      some ⟨some 0, false⟩ ∧
    Text.score_text (some { text := some "a sufficiently long answer" })
        (Text.ClaudeOutcome.ok { total_score := some 150 }) =
      some ⟨some (min 100 (max 0 (Text.computedTotal
        { total_score := some 150 }))), true⟩ :=
  ⟨claim_C9_amended.1 _ _ (by right; decide),
   claim_C9_amended.1 _ _ (by right; decide),
   claim_C9_amended.2 _ _ (by rw [not_or]; exact ⟨by decide, by decide⟩)⟩

/-! ## Claim C10 -/

/-- C10: for every model response the Rubric-Text scorer parses
successfully (reached only when the answer text passed the length gate),
the returned score is non-null and lies in [0, 100]: the computed total
(the parsed total, or the dimension sum when the parsed total is zero) is
clamped — a total above 100 yields exactly 100 and a negative total
yields exactly 0. -/
theorem claim_C10_text_score_clamped (v : Text.TextValue)
    (p : Text.ParsedScores)
    (hlong : ¬(Text.orStr (v.text.getD "") (v.value.getD "") = "" ∨
      (Text.pyStrip (Text.orStr (v.text.getD "")
        (v.value.getD ""))).length < 10)) :
    Text.score_text (some v) (Text.ClaudeOutcome.ok p) =
      some ⟨some (min 100 (max 0 (Text.computedTotal p))), true⟩ ∧
    (0 : ℚ) ≤ min 100 (max 0 (Text.computedTotal p)) ∧
    min 100 (max 0 (Text.computedTotal p)) ≤ 100 ∧
    (100 < Text.computedTotal p →
      min 100 (max 0 (Text.computedTotal p)) = 100) ∧
    (Text.computedTotal p < 0 →
      min 100 (max 0 (Text.computedTotal p)) = 0) := by
  refine ⟨?_, ?_, min_le_left _ _, ?_, ?_⟩
  · simp only [Text.score_text]
    rw [if_neg hlong]
  · exact le_min (by norm_num) (le_max_left 0 _)
  · intro h
    rw [max_eq_right (by linarith), min_eq_left (by linarith)]
  · intro h
    rw [max_eq_left (by linarith), min_eq_right (by norm_num)]

/-- C10 witness: the theorem applied to a long answer with parsed total
150 (clamped to 100) and to one with parsed total -5 (clamped to 0). -/
theorem claim_C10_witness :
    Text.score_text (some { text := some "a sufficiently long answer" })
        (Text.ClaudeOutcome.ok { total_score := some 150 }) =
      some ⟨some 100, true⟩ ∧
    Text.score_text (some { text := some "a sufficiently long answer" })
        (Text.ClaudeOutcome.ok { total_score := some (-5) }) =
      some ⟨some 0, true⟩ := by
  have h1 := claim_C10_text_score_clamped
    { text := some "a sufficiently long answer" }
    { total_score := some 150 }
    (by rw [not_or]; exact ⟨by decide, by decide⟩)
  have h2 := claim_C10_text_score_clamped
    { text := some "a sufficiently long answer" }
    { total_score := some (-5) }
    (by rw [not_or]; exact ⟨by decide, by decide⟩)
  constructor
  · rw [h1.1, h1.2.2.2.1 (by norm_num [Text.computedTotal])]
  · rw [h2.1, h2.2.2.2.2 (by norm_num [Text.computedTotal])]

end TNE
